import Mathlib

/-!
A shallow embedding, in Lean 4, of the `wasabi` JSON-RPC client library
(`wasabi/structs.go`, `wasabi/client.go`, and the method/enum declarations),
together with theorems checking the library's specification against the code.

Go machine integers are modelled as `Int`, Go strings as `String` (with an
explicit UTF-8 byte encoding where the code manipulates bytes), nil-able Go
maps/pointers as `Option`, and fallible operations as `Option`-returning
functions.  `float64` fields, which the library only carries around and never
computes with, are modelled as `Rat`.
-/

namespace Wasabi

/-- A JSON value.  Numbers are modelled as integers: the library only ever
decodes integral numeric fields (`code`, counts, indices). -/
inductive Json where
  | null
  | bool (b : Bool)
  | num (n : Int)
  | str (s : String)
  | arr (elems : List Json)
  | obj (fields : List (String × Json))

/-- UTF-8 byte sequence of a character (Go strings are UTF-8 byte strings). -/
def utf8Bytes (c : Char) : List Nat :=
  let n := c.toNat
  if n < 128 then [n]
  else if n < 2048 then [192 + n / 64, 128 + n % 64]
  else if n < 65536 then [224 + n / 4096, 128 + (n / 64) % 64, 128 + n % 64]
  else [240 + n / 262144, 128 + (n / 4096) % 64, 128 + (n / 64) % 64, 128 + n % 64]

/-- The bytes of a Go string. -/
def stringBytes (s : String) : List Nat :=
  (s.toList.map utf8Bytes).flatten

/-- The standard base64 alphabet. -/
def base64Table : List Char :=
  "ABCDEFGHIJKLMNOPQRSTUVWXYZabcdefghijklmnopqrstuvwxyz0123456789+/".toList

/-- The base64 digit for a 6-bit value. -/
def base64Char (n : Nat) : Char := base64Table.getD n '?'

/-- `base64.StdEncoding.EncodeToString`: standard base64 with `=` padding. -/
def base64Encode : List Nat → String
  | [] => ""
  | [b1] =>
    String.mk [base64Char (b1 / 4), base64Char (b1 % 4 * 16)] ++ "=="
  | [b1, b2] =>
    String.mk [base64Char (b1 / 4), base64Char (b1 % 4 * 16 + b2 / 16),
               base64Char (b2 % 16 * 4)] ++ "="
  | b1 :: b2 :: b3 :: rest =>
    String.mk [base64Char (b1 / 4), base64Char (b1 % 4 * 16 + b2 / 16),
               base64Char (b2 % 16 * 4 + b3 / 64), base64Char (b3 % 64)] ++
    base64Encode rest

/-- `Config` from `structs.go`.  `CustomHeaders` is `none` for a nil Go map and
`some` (an association list) otherwise; `Transport` only matters as data to be
left untouched, so it is modelled as an opaque optional token. -/
structure Config where
  Host : String
  Port : Int
  CustomHeaders : Option (List (String × String))
  Transport : Option Unit
  RpcUser : String
  RpcPassword : String

/-- `strings.ContainsAny(host, "/:")`. -/
def hostContainsSlashOrColon (h : String) : Bool :=
  h.toList.any fun ch => ch == '/' || ch == ':'

/-- The loop body of the `CustomHeaders != nil` case of `Config.Validate`:
returns the first validation error among the header entries, if any. -/
def checkCustomHeaders : List (String × String) → Option String
  | [] => none
  | (k, v) :: rest =>
    if k = "" then some "custom header key must not be empty"
    else if v = "" then some "custom header value must not be empty"
    else if k = "Authorization" then some "custom header key must not be Authorization"
    else checkCustomHeaders rest

/-- The HTTP Basic credential synthesized by `Config.Validate`:
`"Basic " + base64(user + ":" + password)`. -/
def basicAuthHeader (user pass : String) : String :=
  "Basic " ++ base64Encode (stringBytes (user ++ ":" ++ pass))

/-- `(*Config).Validate` from `structs.go`.  The Go function is a `switch`
whose cases are tried in order and of which only the FIRST matching case runs;
it mutates the receiver, so the embedding returns the error (if any) paired
with the updated configuration. -/
def Config.Validate (c : Config) : Option String × Config :=
  if c.Host = "" then (some "host must not be empty", c)
  else if hostContainsSlashOrColon c.Host then (some "host must not contain / or :", c)
  else if c.Port = 0 then (none, { c with Port := 37128 })
  else if c.Port < 0 ∨ c.Port > 65535 then (some "port must be between 0 and 65535", c)
  else if c.RpcUser ≠ "" ∧ c.RpcPassword = "" then
    (some "rpc password must not be empty if rpc user is set", c)
  else if c.RpcUser = "" ∧ c.RpcPassword ≠ "" then
    (some "rpc user must not be empty if rpc password is set", c)
  else
    match c.CustomHeaders with
    | some hs => (checkCustomHeaders hs, c)
    | none =>
      if c.RpcUser ≠ "" ∧ c.RpcPassword ≠ "" then
        (none, { c with CustomHeaders := some [("Authorization", basicAuthHeader c.RpcUser c.RpcPassword)] })
      else (none, c)

/-! ## JSON-RPC envelopes and error decoding (`client.go`) -/

/-- The generic-server-error code `E_SERVER` of the `RPCErrorCode` enumeration. -/
def E_SERVER : Int := -32000

/-- `RPCError` from `client.go`: code, message, and optional data.  The Go
`Data interface{}` receives the decoded JSON value (`Json.null` when absent). -/
structure RPCError where
  Code : Int
  Message : String
  Data : Json

/-- One assignment step of `json.Unmarshal` into an `RPCError` struct: a
`code` field must carry a number, a `message` field a string, `data` is
arbitrary, and unknown keys are ignored.  `none` is a decode failure. -/
def applyRPCErrorField (e : RPCError) : String × Json → Option RPCError
  | ("code", Json.num n) => some { e with Code := n }
  | ("code", _) => none
  | ("message", Json.str s) => some { e with Message := s }
  | ("message", _) => none
  | ("data", v) => some { e with Data := v }
  | (_, _) => some e

/-- Fold `applyRPCErrorField` over the fields of a JSON object, in order. -/
def unmarshalRPCErrorFields (e : RPCError) : List (String × Json) → Option RPCError
  | [] => some e
  | f :: rest =>
    match applyRPCErrorField e f with
    | none => none
    | some e' => unmarshalRPCErrorFields e' rest

/-- `json.Unmarshal(raw, &RPCError{})`: succeeds on a JSON object (field by
field) and on JSON `null` (leaving the zero value); fails on anything else. -/
def unmarshalRPCError : Json → Option RPCError
  | Json.null => some ⟨0, "", Json.null⟩
  | Json.obj fields => unmarshalRPCErrorFields ⟨0, "", Json.null⟩ fields
  | _ => none

/-- A `json.RawMessage`: the raw text of a JSON fragment together with the
value it parses to (the enclosing envelope decoded successfully, so every
retained raw message is well-formed JSON). -/
structure RawMessage where
  text : String
  val : Json

/-- `clientResponse` from `client.go`: the decoded response envelope.  A JSON
`null` (or absent) `result`/`error` field leaves the corresponding
`*json.RawMessage` nil, modelled as `none`. -/
structure ClientResponse where
  Version : String
  Result : Option RawMessage
  Error : Option RawMessage

/-- The four possible outcomes of `decodeClientResponse`: success writing the
reply, a (possibly synthesized) `*RPCError`, the `RPCErrNullResult` sentinel,
or a failure of `json.Unmarshal(*c.Result, reply)`. -/
inductive DecodeOutcome (α : Type) where
  | ok (a : α)
  | rpcErr (e : RPCError)
  | nullResult
  | badResult

/-- `decodeClientResponse` from `client.go`, parametrised by the stdlib
unmarshaller `um` for the caller's reply type: a present `error` field wins
(structured decode, else a synthesized `E_SERVER` error with the raw text as
message); a nil `result` yields the null-result sentinel; otherwise the result
is unmarshalled into the reply. -/
def decodeClientResponse {α : Type} (um : Json → Option α) (c : ClientResponse) :
    DecodeOutcome α :=
  match c.Error with
  | some e =>
    match unmarshalRPCError e.val with
    | some jsonErr => .rpcErr jsonErr
    | none => .rpcErr { Code := E_SERVER, Message := e.text, Data := Json.null }
  | none =>
    match c.Result with
    | none => .nullResult
    | some r =>
      match um r.val with
      | some a => .ok a
      | none => .badResult

/-! ## Methods and the client pipeline (`client.go`) -/

/-- The `Method` enumeration (from the method/enum declaration file). -/
inductive Method where
  | GetStatus | CreateWallet | LoadWallet | ListCoins | ListUnspentCoins
  | GetWalletInfo | GetNewAddress | Send | Build | Broadcast | GetHistory
  | ListKeys | StartCoinJoin | StartCoinJoinSweep | StopCoinJoin | Stop
  | GetFeeRates | ListWallets | ExcludeFromCoinJoin | RecoverWallet
  | BuildUnsafeTransaction | PayInCoinJoin | ListPaymentsInCoinJoin
  | CancelPaymentInCoinJoin | CancelTransaction | SpeedUpTransaction
deriving DecidableEq

/-- `Method.String()`: the wire name of each method. -/
def Method.toString : Method → String
  | .GetStatus => "getstatus"
  | .CreateWallet => "createwallet"
  | .LoadWallet => "loadwallet"
  | .ListCoins => "listcoins"
  | .ListUnspentCoins => "listunspentcoins"
  | .GetWalletInfo => "getwalletinfo"
  | .GetNewAddress => "getnewaddress"
  | .Send => "send"
  | .Build => "build"
  | .Broadcast => "broadcast"
  | .GetHistory => "gethistory"
  | .ListKeys => "listkeys"
  | .StartCoinJoin => "startcoinjoin"
  | .StartCoinJoinSweep => "startcoinjoinsweep"
  | .StopCoinJoin => "stopcoinjoin"
  | .Stop => "stop"
  | .GetFeeRates => "getfeerates"
  | .ListWallets => "listwallets"
  | .ExcludeFromCoinJoin => "excludefromcoinjoin"
  | .RecoverWallet => "recoverwallet"
  | .BuildUnsafeTransaction => "buildunsafetransaction"
  | .PayInCoinJoin => "payincoinjoin"
  | .ListPaymentsInCoinJoin => "listpaymentsincoinjoin"
  | .CancelPaymentInCoinJoin => "cancelpaymentincoinjoin"
  | .CancelTransaction => "canceltransaction"
  | .SpeedUpTransaction => "speeduptransaction"

/-- The wallet path segment each method wrapper passes to `client.do` as
`targetWalletName`: wallet-scoped wrappers pass the wallet name, the others
pass the empty string (read off the wrapper bodies in `client.go`). -/
def methodTargetWallet : Method → String → String
  | .GetStatus, _ => ""
  | .CreateWallet, _ => ""
  | .LoadWallet, _ => ""
  | .ListCoins, w => w
  | .ListUnspentCoins, w => w
  | .GetWalletInfo, w => w
  | .GetNewAddress, w => w
  | .Send, w => w
  | .Build, w => w
  | .Broadcast, w => w
  | .GetHistory, w => w
  | .ListKeys, w => w
  | .StartCoinJoin, w => w
  | .StartCoinJoinSweep, w => w
  | .StopCoinJoin, w => w
  | .Stop, _ => ""
  | .GetFeeRates, _ => ""
  | .ListWallets, _ => ""
  | .ExcludeFromCoinJoin, w => w
  | .RecoverWallet, _ => ""
  | .BuildUnsafeTransaction, w => w
  | .PayInCoinJoin, w => w
  | .ListPaymentsInCoinJoin, w => w
  | .CancelPaymentInCoinJoin, w => w
  | .CancelTransaction, w => w
  | .SpeedUpTransaction, w => w

/-- Whether a method is wallet-scoped, i.e. its wrapper places the wallet name
in the URL path segment. -/
def walletScoped : Method → Bool
  | .GetStatus => false
  | .CreateWallet => false
  | .LoadWallet => false
  | .Stop => false
  | .GetFeeRates => false
  | .ListWallets => false
  | .RecoverWallet => false
  | _ => true

/-- `clientRequest` from `client.go`: the JSON-RPC request envelope. -/
structure ClientRequest where
  Version : String
  Method : String
  Params : Json
  Id : Nat

/-- `encodeClientRequest` from `client.go`.  The random id is passed in
explicitly (`rand.Int` is an ambient randomness source); parameter values are
already JSON-shaped, so serialization cannot fail. -/
def encodeClientRequest (method : String) (args : Json) (reqId : Nat) : ClientRequest :=
  { Version := "2.0", Method := method, Params := args, Id := reqId }

/-- The HTTP POST request `client.do` hands to the HTTP client. -/
structure HTTPRequest where
  url : String
  headers : List (String × String)
  body : ClientRequest

/-- The body of an HTTP response, as seen by the envelope decoder: either
text that fails to decode as a response envelope, or a decoded envelope. -/
inductive ResponseBody where
  | malformed (text : String)
  | envelope (c : ClientResponse)

/-- What `httpClient.Do` produces: a transport failure or a response with a
status code and a body. -/
inductive TransportResult where
  | failure (msg : String)
  | response (statusCode : Nat) (body : ResponseBody)

/-- The connection state a `client` value carries (`client` struct in
`client.go`): host, port and the header map taken from the validated config. -/
structure ClientState where
  host : String
  port : Int
  headers : Option (List (String × String))

/-- `NewClient` from `client.go`: validate the config, then build the client
from the validated fields (`none` models returning a non-nil error). -/
def NewClient (cfg : Config) : Option ClientState :=
  match Config.Validate cfg with
  | (some _, _) => none
  | (none, c) => some { host := c.Host, port := c.Port, headers := c.CustomHeaders }

/-- `fmt.Sprintf("http://%s:%d/%s", c.host, c.port, targetWalletName)`. -/
def requestURL (host : String) (port : Int) (wallet : String) : String :=
  "http://" ++ host ++ ":" ++ ToString.toString port ++ "/" ++ wallet

/-- The request-building prefix of `client.do`: encode the envelope, format
the URL, attach the client's headers. -/
def buildRequest (st : ClientState) (method : Method) (wallet : String)
    (params : Json) (reqId : Nat) : HTTPRequest :=
  { url := requestURL st.host st.port wallet,
    headers := st.headers.getD [],
    body := encodeClientRequest method.toString params reqId }

/-- The possible non-nil errors `client.do` returns. -/
inductive GoError where
  | transportFailed (msg : String)
  | httpStatus (code : Nat)
  | bodyDecode (msg : String)
  | rpc (e : RPCError)
  | resultUnmarshal

/-- `client.do` from `client.go`, over an abstract transport.  Returns the
error (`none` = Go `nil`), the value decoded into `out` (if any), and the
number of HTTP requests issued.  Note the handling of the sentinel at the end:
`err != nil && !errors.Is(err, RPCErrNullResult)` swallows `RPCErrNullResult`
for every method. -/
def clientDo {α : Type} (st : ClientState) (transport : HTTPRequest → TransportResult)
    (um : Json → Option α) (method : Method) (targetWalletName : String)
    (params : Json) (reqId : Nat) : Option GoError × Option α × Nat :=
  let req := buildRequest st method targetWalletName params reqId
  match transport req with
  | .failure msg => (some (.transportFailed msg), none, 1)
  | .response status body =>
    if status ≠ 200 then (some (.httpStatus status), none, 1)
    else
      match body with
      | .malformed msg => (some (.bodyDecode msg), none, 1)
      | .envelope c =>
        match decodeClientResponse um c with
        | .rpcErr e => (some (.rpc e), none, 1)
        | .badResult => (some .resultUnmarshal, none, 1)
        | .nullResult => (none, none, 1)
        | .ok a => (none, some a, 1)

/-! ## Typed responses and method wrappers (`structs.go`, `client.go`) -/

/-- `BitcoinPeer` from `structs.go` (`time.Time` carried as its text form). -/
structure BitcoinPeer where
  IsConnected : Bool
  LastSeen : String
  Endpoint : String
  UserAgent : String
deriving DecidableEq

/-- `GetStatusResponse` from `structs.go`. -/
structure GetStatusResponse where
  TorStatus : String
  BackendStatus : String
  BestBlockchainHeight : Nat
  BestBlockchainHash : String
  FiltersCount : Int
  FiltersLeft : Int
  Network : String
  ExchangeRate : Rat
  Peers : List BitcoinPeer
deriving DecidableEq

/-- The Go zero value of `GetStatusResponse`. -/
def GetStatusResponse.zero : GetStatusResponse :=
  { TorStatus := "", BackendStatus := "", BestBlockchainHeight := 0,
    BestBlockchainHash := "", FiltersCount := 0, FiltersLeft := 0,
    Network := "", ExchangeRate := 0, Peers := [] }

/-- `ListCoinsResponse` from `structs.go`. -/
structure ListCoinsResponse where
  TxID : String
  Index : Int
  Amount : Int
  AnonymityScore : Rat
  Confirmed : Bool
  Confirmations : Int
  KeyPath : String
  Address : String
  SpentBy : Option String
  Label : String
  ExcludedFromCoinJoin : Bool
deriving DecidableEq

/-- `SendResponse` from `structs.go`. -/
structure SendResponse where
  TransactionID : String
  Transaction : String
deriving DecidableEq

/-- The Go zero value of `SendResponse`. -/
def SendResponse.zero : SendResponse := { TransactionID := "", Transaction := "" }

/-- `Payment` from `structs.go`. -/
structure Payment where
  SendTo : String
  Amount : Int
  Label : String

/-- `Coin` from `structs.go`. -/
structure Coin where
  TransactionID : String
  Index : Int

/-- The JSON shape `json.Marshal` gives a `Payment` (per its struct tags). -/
def Payment.toJson (p : Payment) : Json :=
  Json.obj [("sendto", Json.str p.SendTo), ("amount", Json.num p.Amount),
            ("label", Json.str p.Label)]

/-- The JSON shape `json.Marshal` gives a `Coin` (per its struct tags). -/
def Coin.toJson (c : Coin) : Json :=
  Json.obj [("transactionid", Json.str c.TransactionID), ("index", Json.num c.Index)]

/-- The unmarshaller standing for `json.Unmarshal` into a nil `out`: the
no-payload wrappers pass `nil` for `out`, and unmarshalling into nil always
fails. -/
def umNil : Json → Option Unit := fun _ => none

/-- `client.GetStatus`: payload wrapper returning the zero value alongside any
error (`return GetStatusResponse{}, err`). -/
def clientGetStatus (st : ClientState) (transport : HTTPRequest → TransportResult)
    (um : Json → Option GetStatusResponse) (reqId : Nat) :
    GetStatusResponse × Option GoError :=
  match clientDo st transport um .GetStatus "" Json.null reqId with
  | (some e, _, _) => (GetStatusResponse.zero, some e)
  | (none, out, _) => (out.getD GetStatusResponse.zero, none)

/-- `client.CreateWallet`: params `[walletName, password]`, empty wallet
segment, string result (`return "", err` on error). -/
def clientCreateWallet (st : ClientState) (transport : HTTPRequest → TransportResult)
    (um : Json → Option String) (walletName password : String) (reqId : Nat) :
    String × Option GoError :=
  match clientDo st transport um .CreateWallet ""
      (Json.arr [Json.str walletName, Json.str password]) reqId with
  | (some e, _, _) => ("", some e)
  | (none, out, _) => (out.getD "", none)

/-- `client.ListCoins`: wallet-scoped, nil params, slice result
(`return nil, err` on error; the zero value of a slice is nil = `[]`). -/
def clientListCoins (st : ClientState) (transport : HTTPRequest → TransportResult)
    (um : Json → Option (List ListCoinsResponse)) (walletName : String) (reqId : Nat) :
    List ListCoinsResponse × Option GoError :=
  match clientDo st transport um .ListCoins walletName Json.null reqId with
  | (some e, _, _) => ([], some e)
  | (none, out, _) => (out.getD [], none)

/-- `client.Send`: wallet-scoped, named-mapping params, struct result
(`return SendResponse{}, err` on error). -/
def clientSend (st : ClientState) (transport : HTTPRequest → TransportResult)
    (um : Json → Option SendResponse) (walletName : String) (payments : List Payment)
    (coins : List Coin) (feeTarget : Int) (password : String) (reqId : Nat) :
    SendResponse × Option GoError :=
  match clientDo st transport um .Send walletName
      (Json.obj [("payments", Json.arr (payments.map Payment.toJson)),
                 ("coins", Json.arr (coins.map Coin.toJson)),
                 ("feeTarget", Json.num feeTarget),
                 ("password", Json.str password)]) reqId with
  | (some e, _, _) => (SendResponse.zero, some e)
  | (none, out, _) => (out.getD SendResponse.zero, none)

/-- `client.LoadWallet`: no-payload wrapper (nil `out`), params `[walletName]`,
empty wallet segment. -/
def clientLoadWallet (st : ClientState) (transport : HTTPRequest → TransportResult)
    (walletName : String) (reqId : Nat) : Option GoError :=
  (clientDo st transport umNil .LoadWallet "" (Json.arr [Json.str walletName]) reqId).1

/-- `client.StopCoinJoin`: no-payload wrapper, wallet-scoped, nil params. -/
def clientStopCoinJoin (st : ClientState) (transport : HTTPRequest → TransportResult)
    (walletName : String) (reqId : Nat) : Option GoError :=
  (clientDo st transport umNil .StopCoinJoin walletName Json.null reqId).1

/-- `client.Stop`: no-payload wrapper, empty wallet segment, nil params. -/
def clientStop (st : ClientState) (transport : HTTPRequest → TransportResult)
    (reqId : Nat) : Option GoError :=
  (clientDo st transport umNil .Stop "" Json.null reqId).1

/-! ## The mutex discipline of `client.do` (`c.mutex.Lock()` … deferred
`Unlock()`), as a transition system over `n` concurrent callers.

Each caller of `do` is in one of four phases: `outside` (before `mutex.Lock()`
and after the deferred `Unlock()`), `waiting` (blocked in `mutex.Lock()`),
`sending` (inside `httpClient.Do`: the HTTP request is in flight), or
`draining` (status check and body decode, still holding the lock).  The
`acquire` step encodes the guarantee of `sync.Mutex`: the lock is granted only
when no caller holds it. -/

/-- The phase a caller of `client.do` is in. -/
inductive DoPhase where
  | outside
  | waiting
  | sending
  | draining
deriving DecidableEq

/-- A caller holds the mutex exactly in the `sending` and `draining` phases
(between `c.mutex.Lock()` and the deferred `c.mutex.Unlock()`). -/
def holdsLock : DoPhase → Bool
  | .sending => true
  | .draining => true
  | _ => false

/-- The joint state of `n` concurrent callers of one client's `do`. -/
structure MutexState (n : Nat) where
  phase : Fin n → DoPhase

/-- Initially no caller is inside `do`. -/
def initMutexState (n : Nat) : MutexState n := ⟨fun _ => .outside⟩

/-- Updating the phase of one caller. -/
def setPhase {n : Nat} (s : MutexState n) (i : Fin n) (p : DoPhase) : MutexState n :=
  ⟨Function.update s.phase i p⟩

theorem setPhase_phase {n : Nat} (s : MutexState n) (i : Fin n) (p : DoPhase)
    (a : Fin n) : (setPhase s i p).phase a = Function.update s.phase i p a := rfl

/-- Interleaving steps of the callers of `client.do`.  `acquire` is enabled
only when no caller holds the mutex — the mutual-exclusion guarantee of
`sync.Mutex`. -/
inductive MutexStep {n : Nat} : MutexState n → MutexState n → Prop where
  | call (s : MutexState n) (i : Fin n) (h : s.phase i = .outside) :
      MutexStep s (setPhase s i .waiting)
  | acquire (s : MutexState n) (i : Fin n) (h : s.phase i = .waiting)
      (hfree : ∀ j, holdsLock (s.phase j) = false) :
      MutexStep s (setPhase s i .sending)
  | complete (s : MutexState n) (i : Fin n) (h : s.phase i = .sending) :
      MutexStep s (setPhase s i .draining)
  | release (s : MutexState n) (i : Fin n) (h : s.phase i = .draining) :
      MutexStep s (setPhase s i .outside)

/-- Caller `i` has an HTTP request in flight. -/
def inFlight {n : Nat} (s : MutexState n) (i : Fin n) : Prop :=
  s.phase i = .sending

/-- Mutual exclusion: at most one caller holds the mutex. -/
def mutexInv {n : Nat} (s : MutexState n) : Prop :=
  ∀ i j, holdsLock (s.phase i) = true → holdsLock (s.phase j) = true → i = j

theorem mutexInv_init (n : Nat) : mutexInv (initMutexState n) := by
  intro i j hi _
  simp [initMutexState, holdsLock] at hi

theorem holds_update_not {n : Nat} (f : Fin n → DoPhase) (i : Fin n) (v : DoPhase)
    (hv : holdsLock v = false) (a : Fin n)
    (ha : holdsLock (Function.update f i v a) = true) : holdsLock (f a) = true := by
  by_cases hai : a = i
  · subst hai
    rw [Function.update_same] at ha
    exact absurd ha (by simp [hv])
  · rwa [Function.update_noteq hai] at ha

theorem mutexInv_step {n : Nat} {s t : MutexState n} (hs : mutexInv s)
    (hstep : MutexStep s t) : mutexInv t := by
  cases hstep with
  | call i h =>
    intro a b ha hb
    rw [setPhase_phase] at ha hb
    exact hs a b (holds_update_not s.phase i .waiting rfl a ha)
      (holds_update_not s.phase i .waiting rfl b hb)
  | acquire i h hfree =>
    intro a b ha hb
    rw [setPhase_phase] at ha hb
    have key : ∀ x, holdsLock (Function.update s.phase i DoPhase.sending x) = true → x = i := by
      intro x hx
      by_contra hne
      rw [Function.update_noteq hne] at hx
      exact absurd hx (by simp [hfree x])
    rw [key a ha, key b hb]
  | complete i h =>
    intro a b ha hb
    rw [setPhase_phase] at ha hb
    apply hs a b
    · by_cases hai : a = i
      · subst hai; rw [h]; rfl
      · rwa [Function.update_noteq hai] at ha
    · by_cases hbi : b = i
      · subst hbi; rw [h]; rfl
      · rwa [Function.update_noteq hbi] at hb
  | release i h =>
    intro a b ha hb
    rw [setPhase_phase] at ha hb
    exact hs a b (holds_update_not s.phase i .outside rfl a ha)
      (holds_update_not s.phase i .outside rfl b hb)

theorem mutexInv_reachable {n : Nat} {s : MutexState n}
    (h : Relation.ReflTransGen MutexStep (initMutexState n) s) : mutexInv s := by
  induction h with
  | refl => exact mutexInv_init n
  | tail _ hstep ih => exact mutexInv_step ih hstep

/-! ## Shared concrete fixtures for witnesses and counterexamples -/

/-- A client for `127.0.0.1:37128` with no custom headers. -/
def st0 : ClientState := { host := "127.0.0.1", port := 37128, headers := none }

/-- The envelope `{"jsonrpc":"2.0","result":null,"error":null}` after decoding. -/
def nullEnvelope : ClientResponse := { Version := "2.0", Result := none, Error := none }

/-- A transport whose responses are HTTP 200 with a null-result envelope. -/
def nullTransport : HTTPRequest → TransportResult :=
  fun _ => .response 200 (.envelope nullEnvelope)

/-- A transport that always fails at the connection level. -/
def failTransport : HTTPRequest → TransportResult :=
  fun _ => .failure "connection refused"

/-- A raw `error` field holding the JSON string `"boom"`, which does not
decode as a structured RPC error. -/
def rawErrStr : RawMessage := { text := "\"boom\"", val := Json.str "boom" }

/-- A raw `error` field holding a well-formed structured RPC error object. -/
def rawErrObj : RawMessage :=
  { text := "\x7b\"code\":-32601,\"message\":\"nf\"\x7d",
    val := Json.obj [("code", Json.num (-32601)), ("message", Json.str "nf")] }

/-- An envelope with the undecodable error field and no result. -/
def respErrStr : ClientResponse := { Version := "2.0", Result := none, Error := some rawErrStr }

/-- An envelope with the structured error field and no result. -/
def respErrObj : ClientResponse := { Version := "2.0", Result := none, Error := some rawErrObj }

/-- An envelope carrying BOTH a non-null error and a non-null result. -/
def respBoth : ClientResponse :=
  { Version := "2.0", Result := some { text := "\"v\"", val := Json.str "v" },
    Error := some rawErrObj }

/-! ## Claim theorems -/

/-- C4: whenever the decoded response envelope has a non-null `error` field,
`decodeClientResponse` returns an `*RPCError` to the caller, and the `result`
field is never decoded into the caller's target value (the outcome does not
depend on the reply unmarshaller at all) — even when a non-null `result` is
present in the same envelope. -/
theorem C4_error_field_always_wins {α : Type} (um um' : Json → Option α)
    (c : ClientResponse) (e : RawMessage) (he : c.Error = some e) :
    (∃ er, decodeClientResponse um c = .rpcErr er) ∧
    decodeClientResponse um c = decodeClientResponse um' c := by
  simp only [decodeClientResponse, he]
  cases hu : unmarshalRPCError e.val <;> simp only [hu] <;> exact ⟨⟨_, rfl⟩, by trivial⟩

theorem C4_witness :
    respBoth.Error = some rawErrObj ∧
    (∃ er, decodeClientResponse (fun j => some j) respBoth = .rpcErr er) :=
  ⟨rfl, (C4_error_field_always_wins (fun j => some j) (fun _ => none) respBoth rawErrObj rfl).1⟩

/-- C5: when the `error` field is present but does not decode into the
structured RPC error shape, the decoder returns a generic server error (code
`E_SERVER` = -32000) whose message is exactly the raw text of the error
payload; when it does decode, that structured error is returned intact. -/
theorem C5_error_decode_shape {α : Type} (um : Json → Option α)
    (c : ClientResponse) (e : RawMessage) (he : c.Error = some e) :
    (unmarshalRPCError e.val = none →
      decodeClientResponse um c =
        .rpcErr { Code := E_SERVER, Message := e.text, Data := Json.null }) ∧
    (∀ je, unmarshalRPCError e.val = some je →
      decodeClientResponse um c = .rpcErr je) := by
  simp only [decodeClientResponse, he]
  constructor
  · intro hn; simp only [hn]
  · intro je hj; simp only [hj]

theorem C5_witness :
    decodeClientResponse (fun j => some j) respErrStr =
      .rpcErr { Code := -32000, Message := "\"boom\"", Data := Json.null } ∧
    decodeClientResponse (fun j => some j) respErrObj =
      .rpcErr { Code := -32601, Message := "nf", Data := Json.null } :=
  ⟨(C5_error_decode_shape (fun j => some j) respErrStr rawErrStr rfl).1 rfl,
   (C5_error_decode_shape (fun j => some j) respErrObj rawErrObj rfl).2 _ rfl⟩

/-- C6: through the client pipeline, an HTTP response with status other than
200 makes the call return the error carrying the received status code, the
response body is never decoded (the outcome is independent of the body), and
exactly one request is issued for the call. -/
theorem C6_non200_is_fatal {α : Type} (st : ClientState)
    (um : Json → Option α) (m : Method) (w : String) (p : Json) (rid : Nat)
    (status : Nat) (b b' : ResponseBody) (h : status ≠ 200) :
    clientDo st (fun _ => .response status b) um m w p rid =
      (some (.httpStatus status), none, 1) ∧
    clientDo st (fun _ => .response status b) um m w p rid =
      clientDo st (fun _ => .response status b') um m w p rid := by
  constructor <;> simp [clientDo, h]

theorem C6_witness :
    (500 : Nat) ≠ 200 ∧
    clientDo st0 (fun _ => .response 500 (.malformed "oops")) (fun j => some j)
      .GetStatus "" Json.null 1 = (some (.httpStatus 500), none, 1) :=
  ⟨by decide,
   (C6_non200_is_fatal st0 (fun j => some j) .GetStatus "" Json.null 1 500
     (.malformed "oops") (.malformed "oops") (by decide)).1⟩

/-- C1 counterexample: against a mock transport answering HTTP 200 with the
envelope `{"result":null,"error":null}`, the payload-returning methods
`GetStatus`, `CreateWallet` and `ListCoins` all return a nil error (with the
zero value of their result type) instead of propagating an "unexpected empty
result" error — the claim is false for payload-returning methods. -/
theorem C1_counterexample :
    (clientGetStatus st0 nullTransport (fun _ => none) 1).2 = none ∧
    (clientGetStatus st0 nullTransport (fun _ => none) 1).1 = GetStatusResponse.zero ∧
    (clientCreateWallet st0 nullTransport (fun _ => none) "w" "pw" 1).2 = none ∧
    (clientListCoins st0 nullTransport (fun _ => none) "w" 1).2 = none :=
  ⟨rfl, rfl, rfl, rfl⟩

/-- C1 (amended): `client.do` swallows the null-result sentinel for EVERY
method, so a decoded response with null `result` and null `error` is treated
as success by all methods: no-payload methods (`LoadWallet`, `StopCoinJoin`,
`Stop`) return nil error as claimed, and payload-returning methods (e.g.
`GetStatus`) also return nil error, leaving their result zero-valued. -/
theorem C1_null_result_is_success_for_all_methods {α : Type} (st : ClientState)
    (um : Json → Option α) (umG : Json → Option GetStatusResponse)
    (m : Method) (w ww : String) (p : Json) (rid : Nat) (c : ClientResponse)
    (hr : c.Result = none) (he : c.Error = none) :
    clientDo st (fun _ => .response 200 (.envelope c)) um m w p rid = (none, none, 1) ∧
    clientLoadWallet st (fun _ => .response 200 (.envelope c)) ww rid = none ∧
    clientStopCoinJoin st (fun _ => .response 200 (.envelope c)) ww rid = none ∧
    clientStop st (fun _ => .response 200 (.envelope c)) rid = none ∧
    (clientGetStatus st (fun _ => .response 200 (.envelope c)) umG rid).2 = none := by
  have hdec : ∀ (β : Type) (u : Json → Option β), decodeClientResponse u c = .nullResult := by
    intro β u
    simp only [decodeClientResponse, he, hr]
  have hdo : ∀ (β : Type) (u : Json → Option β) (m' : Method) (w' : String) (p' : Json),
      clientDo st (fun _ => .response 200 (.envelope c)) u m' w' p' rid = (none, none, 1) := by
    intro β u m' w' p'
    simp [clientDo, hdec]
  refine ⟨hdo α um m w p, ?_, ?_, ?_, ?_⟩
  · unfold clientLoadWallet; rw [hdo]
  · unfold clientStopCoinJoin; rw [hdo]
  · unfold clientStop; rw [hdo]
  · unfold clientGetStatus; rw [hdo]

theorem C1_witness :
    nullEnvelope.Result = none ∧ nullEnvelope.Error = none ∧
    clientLoadWallet st0 nullTransport "w" 1 = none :=
  ⟨rfl, rfl,
   (C1_null_result_is_success_for_all_methods st0 (fun (j : Json) => some j)
     (fun _ => none) .LoadWallet "" "w" Json.null 1 nullEnvelope rfl rfl).2.1⟩

/-- A header list containing the key `"Authorization"` never passes the
header-checking loop. -/
theorem checkCustomHeaders_auth (hs : List (String × String))
    (h : "Authorization" ∈ hs.map Prod.fst) : (checkCustomHeaders hs).isSome = true := by
  induction hs with
  | nil => simp at h
  | cons kv rest ih =>
    obtain ⟨k, v⟩ := kv
    simp only [List.map_cons, List.mem_cons] at h
    unfold checkCustomHeaders
    split_ifs with h1 h2 h3
    · rfl
    · rfl
    · rfl
    · rcases h with h | h
      · exact absurd h.symm h3
      · exact ih h

/-- A config with a lone RPC user but zero port (the claim says validation
must reject it). -/
def cfgLoneUserZeroPort : Config :=
  { Host := "127.0.0.1", Port := 0, CustomHeaders := none, Transport := none,
    RpcUser := "u", RpcPassword := "" }

/-- A config with an `"Authorization"` custom header but zero port (the claim
says validation must reject it). -/
def cfgAuthHeaderZeroPort : Config :=
  { Host := "127.0.0.1", Port := 0, CustomHeaders := some [("Authorization", "Basic x")],
    Transport := none, RpcUser := "", RpcPassword := "" }

/-- C2 counterexample: with `Port = 0` the `switch` in `Config.Validate` stops
at the default-port case, so a config with a lone `RpcUser` — and likewise one
with an `"Authorization"` custom header — passes validation with no error,
contradicting "regardless of whether Port is zero". -/
theorem C2_counterexample :
    (Config.Validate cfgLoneUserZeroPort).1 = none ∧
    (Config.Validate cfgAuthHeaderZeroPort).1 = none :=
  ⟨rfl, rfl⟩

/-- C2 (amended): `Config.Validate` returns an error whenever the host
contains `:` or `/`; the lone-credential rejection and the reserved
`"Authorization"` header rejection hold only when `Port` is nonzero — a zero
port takes the default-port case of the `switch` and returns success at once,
skipping every later check. -/
theorem C2_validate_rejections (cfg : Config) :
    (hostContainsSlashOrColon cfg.Host = true → (Config.Validate cfg).1.isSome = true) ∧
    (cfg.Port ≠ 0 →
      ((cfg.RpcUser ≠ "" ∧ cfg.RpcPassword = "") ∨ (cfg.RpcUser = "" ∧ cfg.RpcPassword ≠ "")) →
      (Config.Validate cfg).1.isSome = true) ∧
    (cfg.Port ≠ 0 → ∀ hs, cfg.CustomHeaders = some hs →
      "Authorization" ∈ hs.map Prod.fst → (Config.Validate cfg).1.isSome = true) := by
  refine ⟨?_, ?_, ?_⟩
  · intro hhost
    unfold Config.Validate
    split_ifs <;> simp_all
  · intro hp hcred
    rcases hcred with ⟨h1, h2⟩ | ⟨h1, h2⟩ <;>
      (unfold Config.Validate; split_ifs <;> simp_all)
  · intro hp hs hch hmem
    unfold Config.Validate
    split_ifs <;> simp_all [checkCustomHeaders_auth hs hmem]

theorem C2_witness :
    hostContainsSlashOrColon "a:b" = true ∧
    (Config.Validate
      { Host := "a:b", Port := 1, CustomHeaders := none, Transport := none,
        RpcUser := "", RpcPassword := "" }).1.isSome = true :=
  ⟨rfl, (C2_validate_rejections _).1 rfl⟩

/-- Both credentials set, a non-nil custom header map, port 1. -/
def cfgBothCredsWithHeaders : Config :=
  { Host := "127.0.0.1", Port := 1, CustomHeaders := some [("X-Api", "k")],
    Transport := none, RpcUser := "u", RpcPassword := "p" }

/-- Both credentials set, nil headers, zero port. -/
def cfgBothCredsZeroPort : Config :=
  { Host := "127.0.0.1", Port := 0, CustomHeaders := none, Transport := none,
    RpcUser := "u", RpcPassword := "p" }

/-- C3 counterexample: with both credentials set, validation succeeds WITHOUT
synthesizing the `"Authorization"` header both when the caller supplied a
non-nil `CustomHeaders` map (the `CustomHeaders != nil` case of the `switch`
runs instead of the synthesis case) and when `Port` is zero (the default-port
case returns first) — contradicting "including when the caller supplied a
non-nil CustomHeaders map or a zero Port". -/
theorem C3_counterexample :
    (Config.Validate cfgBothCredsWithHeaders).1 = none ∧
    (Config.Validate cfgBothCredsWithHeaders).2.CustomHeaders = some [("X-Api", "k")] ∧
    (Config.Validate cfgBothCredsZeroPort).1 = none ∧
    (Config.Validate cfgBothCredsZeroPort).2.CustomHeaders = none :=
  ⟨rfl, rfl, rfl, rfl⟩

/-- C3 (amended): the Basic credential header is synthesized exactly on the
path the `switch` can reach it: both credentials non-empty, a valid nonzero
port, a valid host, and a nil `CustomHeaders` map.  There validation succeeds
and installs a fresh map whose `"Authorization"` entry is `"Basic "` followed
by the base64 encoding of `RpcUser:RpcPassword`. -/
theorem C3_auth_header_synthesis (cfg : Config)
    (hu : cfg.RpcUser ≠ "") (hp : cfg.RpcPassword ≠ "")
    (hh : cfg.CustomHeaders = none) (hhost : cfg.Host ≠ "")
    (hchars : hostContainsSlashOrColon cfg.Host = false)
    (hport0 : cfg.Port ≠ 0) (hportlo : ¬cfg.Port < 0) (hporthi : ¬cfg.Port > 65535) :
    (Config.Validate cfg).1 = none ∧
    (Config.Validate cfg).2.CustomHeaders =
      some [("Authorization",
        "Basic " ++ base64Encode (stringBytes (cfg.RpcUser ++ ":" ++ cfg.RpcPassword)))] := by
  unfold Config.Validate
  rw [hh]
  split_ifs <;> simp_all [basicAuthHeader]
  omega

/-- Both credentials set, nil headers, explicit default port. -/
def cfgBothCredsNoHeaders : Config :=
  { Host := "127.0.0.1", Port := 37128, CustomHeaders := none, Transport := none,
    RpcUser := "u", RpcPassword := "p" }

theorem C3_witness :
    (Config.Validate cfgBothCredsNoHeaders).1 = none ∧
    (Config.Validate cfgBothCredsNoHeaders).2.CustomHeaders =
      some [("Authorization", "Basic dTpw")] := by
  have h := C3_auth_header_synthesis cfgBothCredsNoHeaders (by decide) (by decide) rfl
    (by decide) (by decide) (by decide) (by decide) (by decide)
  exact ⟨h.1, h.2.trans (by decide)⟩

/-- The construction example of the spec: host 127.0.0.1, zero port. -/
def cfgDefaultPort : Config :=
  { Host := "127.0.0.1", Port := 0, CustomHeaders := none, Transport := none,
    RpcUser := "", RpcPassword := "" }

/-- C7: constructing a client from `Host = "127.0.0.1"`, `Port = 0` succeeds
with the port defaulted to 37128, and every request such a client builds
targets `http://127.0.0.1:37128/{segment}` where the segment is the wallet
name for wallet-scoped methods and empty for wallet-agnostic ones. -/
theorem C7_default_port_and_target_url :
    NewClient cfgDefaultPort =
      some { host := "127.0.0.1", port := 37128, headers := none } ∧
    (∀ (m : Method) (w : String) (p : Json) (rid : Nat),
      (buildRequest { host := "127.0.0.1", port := 37128, headers := none } m
          (methodTargetWallet m w) p rid).url =
        "http://127.0.0.1:37128/" ++ methodTargetWallet m w) ∧
    (∀ (m : Method) (w : String),
      methodTargetWallet m w = if walletScoped m then w else "") := by
  refine ⟨rfl, ?_, ?_⟩
  · intro m w p rid
    rfl
  · intro m w
    cases m <;> rfl

/-- C9: `Validate` mutates the config only as follows — on the `Port == 0`
path it writes 37128 into `Port`, and on the credential-synthesis path it
installs the `"Authorization"` entry in `CustomHeaders`; `Host`, `RpcUser`,
`RpcPassword` and `Transport` are always left unchanged. -/
theorem C9_validate_frame (cfg : Config) :
    ((Config.Validate cfg).2.Host = cfg.Host) ∧
    ((Config.Validate cfg).2.RpcUser = cfg.RpcUser) ∧
    ((Config.Validate cfg).2.RpcPassword = cfg.RpcPassword) ∧
    ((Config.Validate cfg).2.Transport = cfg.Transport) ∧
    ((Config.Validate cfg).2.Port = cfg.Port ∨
      (cfg.Port = 0 ∧ (Config.Validate cfg).2.Port = 37128)) ∧
    ((Config.Validate cfg).2.CustomHeaders = cfg.CustomHeaders ∨
      (cfg.CustomHeaders = none ∧ (Config.Validate cfg).2.CustomHeaders =
        some [("Authorization", basicAuthHeader cfg.RpcUser cfg.RpcPassword)])) ∧
    (cfg.Host ≠ "" → hostContainsSlashOrColon cfg.Host = false → cfg.Port = 0 →
      (Config.Validate cfg).2.Port = 37128) := by
  cases hch : cfg.CustomHeaders <;>
    (unfold Config.Validate; rw [hch]; split_ifs <;> simp_all)

theorem C9_witness :
    (Config.Validate cfgDefaultPort).2.Port = 37128 ∧
    (Config.Validate cfgLoneUserZeroPort).2.Host = cfgLoneUserZeroPort.Host :=
  ⟨(C9_validate_frame cfgDefaultPort).2.2.2.2.2.2 (by decide) (by decide) rfl,
   (C9_validate_frame cfgLoneUserZeroPort).1⟩

/-- C8: in the transition system of concurrent callers of `client.do`, where
`acquire` encodes the mutual-exclusion guarantee of `c.mutex`, every state
reachable from the initial state has at most one caller with an HTTP request
in flight. -/
theorem C8_at_most_one_request_in_flight {n : Nat} (s : MutexState n)
    (h : Relation.ReflTransGen MutexStep (initMutexState n) s)
    (i j : Fin n) (hi : inFlight s i) (hj : inFlight s j) : i = j := by
  have hinv := mutexInv_reachable h
  have hi' : s.phase i = DoPhase.sending := hi
  have hj' : s.phase j = DoPhase.sending := hj
  exact hinv i j (by rw [hi']; rfl) (by rw [hj']; rfl)

/-- Caller 0 of two has requested. -/
def mutexS1 : MutexState 2 := setPhase (initMutexState 2) 0 .waiting

/-- Caller 0 of two has acquired the mutex and has a request in flight. -/
def mutexS2 : MutexState 2 := setPhase mutexS1 0 .sending

theorem C8_witness :
    Relation.ReflTransGen MutexStep (initMutexState 2) mutexS2 ∧
    inFlight mutexS2 0 ∧ (0 : Fin 2) = 0 := by
  have h1 : MutexStep (initMutexState 2) mutexS1 :=
    MutexStep.call (initMutexState 2) 0 rfl
  have h2 : MutexStep mutexS1 mutexS2 :=
    MutexStep.acquire mutexS1 0 (by decide) (by decide)
  have hr : Relation.ReflTransGen MutexStep (initMutexState 2) mutexS2 :=
    Relation.ReflTransGen.tail (Relation.ReflTransGen.tail Relation.ReflTransGen.refl h1) h2
  exact ⟨hr, (by decide : mutexS2.phase 0 = DoPhase.sending),
    C8_at_most_one_request_in_flight mutexS2 hr 0 0
      (by decide : mutexS2.phase 0 = DoPhase.sending)
      (by decide : mutexS2.phase 0 = DoPhase.sending)⟩

/-- C10: for the payload-returning wrappers (`GetStatus`, `CreateWallet`,
`ListCoins`, `Send`), whenever the call returns a non-nil error the
accompanying result is exactly the zero value of its result type (empty
struct, empty string, or nil slice). -/
theorem C10_zero_value_on_error (st : ClientState)
    (transport : HTTPRequest → TransportResult) (rid : Nat) :
    (∀ um e, (clientGetStatus st transport um rid).2 = some e →
      (clientGetStatus st transport um rid).1 = GetStatusResponse.zero) ∧
    (∀ um w pw e, (clientCreateWallet st transport um w pw rid).2 = some e →
      (clientCreateWallet st transport um w pw rid).1 = "") ∧
    (∀ um w e, (clientListCoins st transport um w rid).2 = some e →
      (clientListCoins st transport um w rid).1 = []) ∧
    (∀ um w ps cs ft pw e, (clientSend st transport um w ps cs ft pw rid).2 = some e →
      (clientSend st transport um w ps cs ft pw rid).1 = SendResponse.zero) := by
  refine ⟨?_, ?_, ?_, ?_⟩
  · intro um e h
    unfold clientGetStatus at h ⊢
    rcases hdo : clientDo st transport um .GetStatus "" Json.null rid with ⟨err, out, k⟩
    rw [hdo] at h
    cases err
    · exact Option.noConfusion h
    · rfl
  · intro um w pw e h
    unfold clientCreateWallet at h ⊢
    rcases hdo : clientDo st transport um .CreateWallet ""
        (Json.arr [Json.str w, Json.str pw]) rid with ⟨err, out, k⟩
    rw [hdo] at h
    cases err
    · exact Option.noConfusion h
    · rfl
  · intro um w e h
    unfold clientListCoins at h ⊢
    rcases hdo : clientDo st transport um .ListCoins w Json.null rid with ⟨err, out, k⟩
    rw [hdo] at h
    cases err
    · exact Option.noConfusion h
    · rfl
  · intro um w ps cs ft pw e h
    unfold clientSend at h ⊢
    rcases hdo : clientDo st transport um .Send w
        (Json.obj [("payments", Json.arr (ps.map Payment.toJson)),
                   ("coins", Json.arr (cs.map Coin.toJson)),
                   ("feeTarget", Json.num ft),
                   ("password", Json.str pw)]) rid with ⟨err, out, k⟩
    rw [hdo] at h
    cases err
    · exact Option.noConfusion h
    · rfl

theorem C10_witness :
    (clientGetStatus st0 failTransport (fun _ => none) 1).2 =
      some (.transportFailed "connection refused") ∧
    (clientGetStatus st0 failTransport (fun _ => none) 1).1 = GetStatusResponse.zero :=
  ⟨rfl,
   (C10_zero_value_on_error st0 failTransport 1).1 (fun _ => none)
     (.transportFailed "connection refused") rfl⟩

end Wasabi
